import Mathlib

/-!
# Podcastpio core components, shallowly embedded

This file embeds the deterministic core of the Podcastpio repository in
Lean 4 and proves properties of it: the fallback podcast-script synthesizer
(`generateFallbackScript`), the script-generation facade
(`generatePodcastScript`), and the tail of the URL content extractor
(`fetchContentFromUrl`).

Modelling notes, used consistently below:
* JS strings are modelled by `String`; `toLowerCase`/`toUpperCase` are
  modelled on their ASCII behaviour, and the JS `\s` class by the ASCII
  whitespace characters.
* JS objects used as string-keyed maps are modelled as association lists in
  insertion order, with `Object.entries` reproducing the ECMAScript own-key
  enumeration order (array-index keys first, in ascending numeric order,
  then the remaining string keys in insertion order).  The
  `Object.prototype` chain of these plain object literals is modelled where
  it is observable: a key naming an inherited prototype member makes an
  `obj[key] || default` lookup truthy (see `objectPrototypeKeys`), a write
  to `"__proto__"` is swallowed by the inherited setter, and a fresh read
  of `"constructor"` yields the inherited function (see `jsObjInsert`).
* code that can throw is modelled with `Except`.
-/

namespace Podcastpio

/-! ## JavaScript string primitives -/

/-- The JS `\s` character class, restricted to its ASCII members: space,
tab, line feed, vertical tab, form feed and carriage return.  (The
non-ASCII members — NBSP, the Unicode space separators, BOM — are outside
the ASCII string model used here.) -/
def isWsChar (c : Char) : Bool :=
  c == ' ' || c == '\t' || c == '\n' || c == '\x0b' || c == '\x0c' || c == '\r'

/-- One step of the run-splitting machine behind `jsSplitRuns`: `st.1` holds
the finished fields in reverse, `st.2.1` the current field's characters in
reverse, and `st.2.2` records whether the previous character was a
separator. -/
def splitRunsStep (p : Char → Bool) (st : List String × List Char × Bool) (c : Char) :
    List String × List Char × Bool :=
  if p c then
    if st.2.2 then (st.1, [], true)
    else (String.mk st.2.1.reverse :: st.1, [], true)
  else (st.1, c :: st.2.1, false)

/-- JS `String.prototype.split` applied to a regex of the form `/[c...]+/`:
the fields between maximal runs of separator characters.  A string that
starts (ends) with a separator contributes an empty leading (trailing)
field, and the empty string splits to `[""]`, exactly as in JS. -/
def jsSplitRuns (p : Char → Bool) (s : String) : List String :=
  let st := s.data.foldl (splitRunsStep p) ([], [], false)
  (String.mk st.2.1.reverse :: st.1).reverse

/-- ASCII model of `String.prototype.toLowerCase`.  (Defined over the
character list so that it evaluates by kernel reduction.) -/
def jsToLower (s : String) : String :=
  String.mk (s.data.map Char.toLower)

/-- The token list `words` of `generateFallbackScript`:
`content.toLowerCase().split(/\s+/)`. -/
def wordsOf (content : String) : List String :=
  jsSplitRuns isWsChar (jsToLower content)

/-- JS `a || b` on strings: `b` when `a` is the empty string (falsy). -/
def jsOrStr (a b : String) : String :=
  if a = "" then b else a

/-! ## Category inference (`generateFallbackScript`, lines 41-46) -/

def techKeywords : List String :=
  ["technology", "tech", "ai", "digital", "software"]

def businessKeywords : List String :=
  ["business", "market", "company", "finance", "economy"]

def healthKeywords : List String :=
  ["health", "medical", "wellness", "fitness", "nutrition"]

def educationKeywords : List String :=
  ["education", "learning", "school", "university", "study"]

def scienceKeywords : List String :=
  ["science", "research", "study", "discovery", "experiment"]

/-- Category assignment of `generateFallbackScript`: a `let category =
"General"` followed by five consecutive conditional reassignments, one per
keyword set, in the source order Technology, Business, Health, Education,
Science.  None of the `if` statements has an `else`, so each later match
overwrites the earlier ones. -/
def inferCategory (words : List String) : String :=
  let category := "General"
  let category := if words.any (fun w => techKeywords.contains w) then "Technology" else category
  let category := if words.any (fun w => businessKeywords.contains w) then "Business" else category
  let category := if words.any (fun w => healthKeywords.contains w) then "Health" else category
  let category := if words.any (fun w => educationKeywords.contains w) then "Education" else category
  let category := if words.any (fun w => scienceKeywords.contains w) then "Science" else category
  category

/-- Category inference as the amended claim words it: the keyword set checked
last wins, so the effective priority is Science over Education over Health
over Business over Technology, with `"General"` when no set matches. -/
def inferCategoryLastMatch (words : List String) : String :=
  if words.any (fun w => scienceKeywords.contains w) then "Science"
  else if words.any (fun w => educationKeywords.contains w) then "Education"
  else if words.any (fun w => healthKeywords.contains w) then "Health"
  else if words.any (fun w => businessKeywords.contains w) then "Business"
  else if words.any (fun w => techKeywords.contains w) then "Technology"
  else "General"

/-- Claim C1, counterexample: a content string containing the Technology
keyword `"technology"` and the Business keyword `"business"` is assigned
`"Business"`, the set checked later, not `"Technology"`, the set the claim's
priority order `Technology > Business > ...` puts first. -/
theorem inferCategory_two_sets_not_first :
    inferCategory (wordsOf "technology business") = "Business" ∧
      inferCategory (wordsOf "technology business") ≠ "Technology" := by
  constructor
  · decide
  · decide

/-- Claim C1 (amended): for every word list, the category assigned by the
fallback synthesizer is that of the keyword set checked last among the
matching ones, in the fixed check order Technology, Business, Health,
Education, Science (so the effective priority is Science > Education >
Health > Business > Technology); a word list matching exactly one set gets
that set's category, and one matching no set gets `"General"`. -/
theorem inferCategory_eq_lastMatch (words : List String) :
    inferCategory words = inferCategoryLastMatch words := by
  unfold inferCategory inferCategoryLastMatch
  cases ht : words.any (fun w => techKeywords.contains w) <;>
    cases hb : words.any (fun w => businessKeywords.contains w) <;>
      cases hh : words.any (fun w => healthKeywords.contains w) <;>
        cases he : words.any (fun w => educationKeywords.contains w) <;>
          cases hs : words.any (fun w => scienceKeywords.contains w) <;>
            simp [ht, hb, hh, he, hs]

/-! ## Timestamp synthesis (`generateFallbackScript`, lines 141-152) -/

/-- A show-notes timestamp entry `{ time, topic }`. -/
structure Timestamp where
  time : String
  topic : String
deriving DecidableEq, Repr

/-- The property names a plain object literal inherits from
`Object.prototype` (the standard members plus the Annex B accessors, as
present in the standard engines): a read `obj[key]` for any of these
yields a truthy non-numeric value — a function, or `Object.prototype`
itself for `"__proto__"` — even though the key is not an own key, so an
`obj[key] || default` lookup does not fall through to the default. -/
def objectPrototypeKeys : List String :=
  ["constructor", "hasOwnProperty", "isPrototypeOf", "propertyIsEnumerable",
   "toLocaleString", "toString", "valueOf", "__proto__", "__defineGetter__",
   "__defineSetter__", "__lookupGetter__", "__lookupSetter__"]

/-- The duration lookup
`durationMap[duration as keyof typeof durationMap] || 15` on the plain
object literal `{ "5-10": 8, "10-20": 15, "20-30": 25, "30+": 35 }`:
one of the four mapped numbers; `none` for a duration string naming an
inherited `Object.prototype` member, whose truthy non-numeric value is
kept by `||`; and the default 15 for every other string. -/
def durationEstimate (duration : String) : Option Nat :=
  if duration = "5-10" then some 8
  else if duration = "10-20" then some 15
  else if duration = "20-30" then some 25
  else if duration = "30+" then some 35
  else if duration ∈ objectPrototypeKeys then none
  else some 15

/-- `${Math.floor(estimatedDuration * k / 10)}` as rendered into a time
label: a number renders as its decimal digits; arithmetic on the inherited
non-numeric value is `NaN`, `Math.floor(NaN)` is `NaN`, and it renders as
`"NaN"`. -/
def floorTenths (est : Option Nat) (k : Nat) : String :=
  match est with
  | some n => toString (n * k / 10)
  | none => "NaN"

/-- `${estimatedDuration - 2}` likewise: `NaN` for the non-numeric case. -/
def minusTwoLabel (est : Option Nat) : String :=
  match est with
  | some n => toString (n - 2)
  | none => "NaN"

/-- The six timestamps of `generateFallbackScript`, as a function of the
estimated total minutes.  For every numeric estimate the source can produce
(8, 15, 25 and 35), the JS float expressions `Math.floor(est * 0.2)`,
`Math.floor(est * 0.5)` and `Math.floor(est * 0.8)` evaluate to the exact
integers `est * 2 / 10`, `est * 5 / 10` and `est * 8 / 10` (Nat division),
which is how `floorTenths` writes them; `est - 2` never underflows since
the least numeric estimate is 8; and the non-numeric inherited value turns
all four computed labels into `"NaN:00"`. -/
def timestampsFor (est : Option Nat) : List Timestamp :=
  [ ⟨"0:00", "Introduction"⟩,
    ⟨"1:30", "Topic Overview"⟩,
    ⟨floorTenths est 2 ++ ":00", "Key Points Analysis"⟩,
    ⟨floorTenths est 5 ++ ":00", "Main Discussion"⟩,
    ⟨floorTenths est 8 ++ ":00", "Implications & Takeaways"⟩,
    ⟨minusTwoLabel est ++ ":00", "Wrap-up & Next Episode"⟩ ]

/-- The `timestamps` array of `generateFallbackScript` for a duration
bucket. -/
def timestampsOf (duration : String) : List Timestamp :=
  timestampsFor (durationEstimate duration)

/-- Parse the leading decimal digits of a list of characters. -/
def digitsVal : List Char → Nat → Option Nat
  | [], acc => some acc
  | c :: cs, acc => if c.isDigit then digitsVal cs (acc * 10 + (c.toNat - 48)) else none

/-- The whole-minute part of a `"m:ss"` time label: the decimal value of the
digits before the first colon (0 when there are none). -/
def minutesOf (t : String) : Nat :=
  (digitsVal (t.data.takeWhile (fun c => c ≠ ':')) 0).getD 0

/-- For a duration that names no inherited `Object.prototype` member, the
estimate is one of the four mapped numbers (an unrecognized bucket shares
the value 15 with `"10-20"`). -/
theorem durationEstimate_cases (d : String) (h : d ∉ objectPrototypeKeys) :
    durationEstimate d = some 8 ∨ durationEstimate d = some 15 ∨
      durationEstimate d = some 25 ∨ durationEstimate d = some 35 := by
  unfold durationEstimate
  split_ifs with h1 h2 h3 h4 <;> simp_all

/-- Claim C3, counterexample: the duration string `"constructor"` is
unrecognized but does not map to the 15-minute estimate — `durationMap`
inherits `Object.prototype.constructor`, a truthy function, so the `|| 15`
default does not fire, the arithmetic on it is `NaN`, and the four computed
labels all render as `"NaN:00"`; the whole-minute values `0, 1, 0, 0, 0, 0`
are then not non-decreasing. -/
theorem timestamps_constructor_not_monotone :
    timestampsOf "constructor" =
        [⟨"0:00", "Introduction"⟩, ⟨"1:30", "Topic Overview"⟩,
         ⟨"NaN:00", "Key Points Analysis"⟩, ⟨"NaN:00", "Main Discussion"⟩,
         ⟨"NaN:00", "Implications & Takeaways"⟩, ⟨"NaN:00", "Wrap-up & Next Episode"⟩] ∧
      ¬ List.Chain' (· ≤ ·) ((timestampsOf "constructor").map (fun ts => minutesOf ts.time)) := by
  constructor
  · decide
  · rw [show (timestampsOf "constructor").map (fun ts => minutesOf ts.time) =
      [0, 1, 0, 0, 0, 0] from rfl]
    simp [List.chain'_cons]

/-- Claim C3 (amended): for every duration string the timestamp list has
exactly 6 entries and starts with `{"0:00", "Introduction"}`; for the four
recognized buckets and for every unrecognized value that does not name an
inherited `Object.prototype` member, the bucket maps to a numeric estimate
(default 15) and the whole-minute values of the entries are non-decreasing
in list order.  For a duration naming an inherited member the `|| 15`
default does not fire and the four computed labels render as `"NaN:00"`,
breaking monotonicity, as the counterexample shows. -/
theorem timestampsOf_six_monotone (duration : String) :
    (timestampsOf duration).length = 6 ∧
      (timestampsOf duration).head? = some ⟨"0:00", "Introduction"⟩ ∧
      (duration ∉ objectPrototypeKeys →
        (durationEstimate duration).isSome ∧
          List.Chain' (· ≤ ·) ((timestampsOf duration).map (fun ts => minutesOf ts.time))) := by
  refine ⟨rfl, rfl, fun hmem => ?_⟩
  unfold timestampsOf
  rcases durationEstimate_cases duration hmem with h | h | h | h
  · rw [h]
    refine ⟨rfl, ?_⟩
    rw [show (timestampsFor (some 8)).map (fun ts => minutesOf ts.time) =
      [0, 1, 1, 4, 6, 6] from rfl]
    simp [List.chain'_cons]
  · rw [h]
    refine ⟨rfl, ?_⟩
    rw [show (timestampsFor (some 15)).map (fun ts => minutesOf ts.time) =
      [0, 1, 3, 7, 12, 13] from rfl]
    simp [List.chain'_cons]
  · rw [h]
    refine ⟨rfl, ?_⟩
    rw [show (timestampsFor (some 25)).map (fun ts => minutesOf ts.time) =
      [0, 1, 5, 12, 20, 23] from rfl]
    simp [List.chain'_cons]
  · rw [h]
    refine ⟨rfl, ?_⟩
    rw [show (timestampsFor (some 35)).map (fun ts => minutesOf ts.time) =
      [0, 1, 7, 17, 28, 33] from rfl]
    simp [List.chain'_cons]

/-- Witness for claim C3's monotonicity branch at a concrete unrecognized
duration string. -/
theorem timestampsOf_six_monotone_witness :
    (durationEstimate "45").isSome ∧
      List.Chain' (· ≤ ·) ((timestampsOf "45").map (fun ts => minutesOf ts.time)) :=
  (timestampsOf_six_monotone "45").2.2 (by decide)

/-! ## Key-topic extraction (`generateFallbackScript`, lines 48-59)

The frequency map `wordFreq` is a JS object built by
`meaningfulWords.reduce((acc, word) => { acc[word] = (acc[word] || 0) + 1; return acc; }, {})`
and read back with `Object.entries`.  Per the ECMAScript own-property order,
`Object.entries` lists array-index keys (canonical decimal integers below
2^32 - 1) first, in ascending numeric order, and the remaining string keys
in insertion order. -/

def stopWords : List String :=
  ["the", "a", "an", "and", "or", "but", "in", "on", "at", "to", "for", "of", "with",
   "by", "is", "are", "was", "were", "be", "been", "have", "has", "had", "do", "does",
   "did", "will", "would", "could", "should", "may", "might", "can", "this", "that",
   "these", "those", "i", "you", "he", "she", "it", "we", "they", "me", "him", "her",
   "us", "them"]

/-- `words.filter(w => w.length > 4 && !stopWords.has(w))`. -/
def meaningfulWords (content : String) : List String :=
  (wordsOf content).filter (fun w => decide (4 < w.length) && !(stopWords.contains w))

/-- A value stored in the frequency object: a numeric count, or the string
a `"constructor"` entry accumulates (see `jsObjInsert`). -/
inductive JsVal where
  | num (n : Nat)
  | str (s : String)
deriving DecidableEq

/-- `(v || 0) + 1` on an already-present value: a count increments; the
`"constructor"` string is truthy, so `+ 1` concatenates the rendered 1. -/
def bumpVal : JsVal → JsVal
  | .num n => .num (n + 1)
  | .str s => .str (s ++ "1")

/-- What `(acc["constructor"] || 0) + 1` evaluates to on first encounter:
the inherited `Object.prototype.constructor` function is truthy, `+ 1`
concatenates, and the function renders as its source text (here as V8
prints it; the exact text is engine-defined, and no proved statement
depends on it). -/
def constructorSeed : String :=
  "function Object() \x7b [native code] \x7d1"

/-- One assignment `acc[word] = (acc[word] || 0) + 1` on the frequency
object, prototype chain included.  A write to `"__proto__"` hits the
inherited accessor: the read returns the prototype (truthy), and the
assignment of the resulting non-object string is swallowed by the inherited
setter, so no own key ever appears.  A fresh `"constructor"` reads the
inherited constructor function, so its stored value starts as a string, not
a count.  Any other existing key keeps its position and is bumped; any
other fresh key is appended with count 1. -/
def jsObjInsert (acc : List (String × JsVal)) (w : String) : List (String × JsVal) :=
  if w = "__proto__" then acc
  else if w ∈ acc.map Prod.fst then
    acc.map (fun kv => if kv.1 = w then (kv.1, bumpVal kv.2) else kv)
  else if w = "constructor" then acc ++ [(w, .str constructorSeed)]
  else acc ++ [(w, .num 1)]

/-- The frequency object after the `reduce`, in insertion order. -/
def wordFreq (toks : List String) : List (String × JsVal) :=
  toks.foldl jsObjInsert []

/-- Whether a string is an ECMAScript array-index property key: the
canonical decimal form of an integer below 2^32 - 1. -/
def isArrayIndex (s : String) : Bool :=
  match digitsVal s.data 0 with
  | none => false
  | some n => (Nat.repr n == s) && decide (n < 4294967295)

/-- Numeric value of an array-index key (0 for other strings). -/
def keyNumOf (s : String) : Nat :=
  (digitsVal s.data 0).getD 0

/-- Stable insertion: `x` goes in front of the first element that does not
strictly precede it under `lt`. -/
def stableInsert (lt : α → α → Bool) (x : α) : List α → List α
  | [] => [x]
  | y :: ys => if lt y x then y :: stableInsert lt x ys else x :: y :: ys

/-- Stable insertion sort by the strict order `lt`; agrees with the
ECMAScript stable `Array.prototype.sort` for a consistent comparator. -/
def stableSort (lt : α → α → Bool) : List α → List α
  | [] => []
  | x :: xs => stableInsert lt x (stableSort lt xs)

/-- `Object.entries` on the modelled object: array-index keys first in
ascending numeric order, then the other keys in insertion order (own keys
only — inherited properties are not enumerated). -/
def jsObjectEntries (obj : List (String × JsVal)) : List (String × JsVal) :=
  stableSort (fun kv kv' => decide (keyNumOf kv.1 < keyNumOf kv'.1))
      (obj.filter (fun kv => isArrayIndex kv.1)) ++
    obj.filter (fun kv => !isArrayIndex kv.1)

/-- The comparator `([,a],[,b]) => b - a` under ECMAScript `SortCompare`:
two counts compare numerically (descending), and a `NaN` result counts as
equal, which is what any comparison against a `"constructor"` string value
produces.  (With such a value present the comparator is inconsistent and
the engine's order is implementation-defined; the model keeps the stable
order, and no proved statement ranges over such inputs.) -/
def entryLt (kv kv' : String × JsVal) : Bool :=
  match kv.2, kv'.2 with
  | .num a, .num b => decide (b < a)
  | _, _ => false

/-- The stable sort `.sort(([,a],[,b]) => b - a)`: descending by count. -/
def sortEntriesDesc (entries : List (String × JsVal)) : List (String × JsVal) :=
  stableSort entryLt entries

/-- `word.charAt(0).toUpperCase() + word.slice(1)` (ASCII model). -/
def capitalizeJs (w : String) : String :=
  match w.data with
  | [] => ""
  | c :: cs => String.mk (c.toUpper :: cs)

/-- The raw `keyTopics` of `generateFallbackScript`:
`Object.entries(wordFreq).sort(([,a],[,b]) => b - a).slice(0, 5).map(capitalize)`. -/
def keyTopics (content : String) : List String :=
  ((sortEntriesDesc (jsObjectEntries (wordFreq (meaningfulWords content)))).take 5).map
    (fun kv => capitalizeJs kv.1)

/-- The key-topic list of the show notes:
`keyTopics.length > 0 ? keyTopics : ["Analysis", "Discussion", "Insights"]`. -/
def keyTopicsFinal (content : String) : List String :=
  if 0 < (keyTopics content).length then keyTopics content
  else ["Analysis", "Discussion", "Insights"]

/-! ### The key-topic pipeline as the amended claim words it -/

/-- First occurrence of each string, in first-encounter order, skipping
anything in `seen`. -/
def dedupFirstAux (seen : List String) : List String → List String
  | [] => []
  | x :: xs => if x ∈ seen then dedupFirstAux seen xs else x :: dedupFirstAux (x :: seen) xs

/-- The distinct tokens of `l` in first-encounter order. -/
def dedupFirst (l : List String) : List String :=
  dedupFirstAux [] l

/-- The enumeration order of the frequency object's keys, as the amended
claim words it: tokens that are canonical decimal integers below 2^32 - 1
first, in ascending numeric order, then the remaining distinct tokens in
first-encounter order. -/
def enumKeysSpec (toks : List String) : List String :=
  stableSort (fun a b => decide (keyNumOf a < keyNumOf b))
      ((dedupFirst toks).filter (fun w => isArrayIndex w)) ++
    (dedupFirst toks).filter (fun w => !isArrayIndex w)

/-- Descending-by-frequency stable sort on the claim side's numeric
pairs. -/
def sortCountsDesc (entries : List (String × Nat)) : List (String × Nat) :=
  stableSort (fun kv kv' => decide (kv'.2 < kv.2)) entries

/-- The whole key-topic extraction as the amended claim words it: each
enumerated token paired with its frequency in the filtered token list,
stable-sorted by descending frequency, the top 5 taken, and each
capitalized. -/
def keyTopicsSpec (content : String) : List String :=
  ((sortCountsDesc ((enumKeysSpec (meaningfulWords content)).map
      (fun w => (w, (meaningfulWords content).count w)))).take 5).map
    (fun kv => capitalizeJs kv.1)

/-! ### The frequency object in closed form -/

theorem mem_dedupFirstAux_not_seen {x : String} :
    ∀ {l seen : List String}, x ∈ dedupFirstAux seen l → x ∉ seen := by
  intro l
  induction l with
  | nil => intro seen h; simp [dedupFirstAux] at h
  | cons y ys ih =>
    intro seen h
    rw [dedupFirstAux] at h
    by_cases hy : y ∈ seen
    · rw [if_pos hy] at h
      exact ih h
    · rw [if_neg hy] at h
      rcases List.mem_cons.mp h with rfl | h
      · exact hy
      · have := ih h
        intro hx
        exact this (List.mem_cons_of_mem _ hx)

theorem dedupFirstAux_congr :
    ∀ (l seen seen' : List String), (∀ x, x ∈ seen ↔ x ∈ seen') →
      dedupFirstAux seen l = dedupFirstAux seen' l := by
  intro l
  induction l with
  | nil => intro seen seen' _; rfl
  | cons y ys ih =>
    intro seen seen' h
    rw [dedupFirstAux, dedupFirstAux]
    by_cases hy : y ∈ seen
    · rw [if_pos hy, if_pos ((h y).mp hy)]
      exact ih seen seen' h
    · rw [if_neg hy, if_neg (fun hy' => hy ((h y).mpr hy'))]
      have h' : ∀ x, x ∈ y :: seen ↔ x ∈ y :: seen' := by
        intro x
        simp only [List.mem_cons]
        exact or_congr Iff.rfl (h x)
      rw [ih (y :: seen) (y :: seen') h']

/-- `k` further occurrences applied to an already-stored value. -/
def addCount (v : JsVal) : Nat → JsVal
  | 0 => v
  | k + 1 => bumpVal (addCount v k)

theorem addCount_zero (v : JsVal) : addCount v 0 = v := rfl

theorem addCount_bump (v : JsVal) (k : Nat) :
    addCount (bumpVal v) k = addCount v (k + 1) := by
  induction k with
  | zero => rfl
  | succ k ih =>
    show bumpVal (addCount (bumpVal v) k) = bumpVal (addCount v (k + 1))
    rw [ih]

theorem addCount_num (n k : Nat) : addCount (JsVal.num n) k = JsVal.num (n + k) := by
  induction k with
  | zero => rfl
  | succ k ih =>
    show bumpVal (addCount (JsVal.num n) k) = JsVal.num (n + (k + 1))
    rw [ih]
    rfl

/-- Closed form of the `reduce` that builds the frequency object, for token
lists containing neither `"constructor"` nor `"__proto__"` — the only two
all-lower-case `Object.prototype` member names, hence the only tokens
(tokens are lower-cased) on which the prototype chain interferes: the keys
already in `acc` keep their positions and receive one bump per occurrence,
and the tokens not yet present are appended in first-encounter order with
their counts. -/
theorem foldl_jsObjInsert :
    ∀ toks : List String, "constructor" ∉ toks → "__proto__" ∉ toks →
      ∀ acc : List (String × JsVal),
        toks.foldl jsObjInsert acc =
          acc.map (fun kv => (kv.1, addCount kv.2 (toks.count kv.1))) ++
            (dedupFirstAux (acc.map Prod.fst) toks).map
              (fun w => (w, JsVal.num (toks.count w))) := by
  intro toks
  induction toks with
  | nil =>
    intro _ _ acc
    simp [dedupFirstAux, addCount_zero]
  | cons t rest ih =>
    intro hc hp acc
    have htc : t ≠ "constructor" := fun h => hc (List.mem_cons.mpr (Or.inl h.symm))
    have htp : t ≠ "__proto__" := fun h => hp (List.mem_cons.mpr (Or.inl h.symm))
    have hcr : "constructor" ∉ rest := fun h => hc (List.mem_cons_of_mem _ h)
    have hpr : "__proto__" ∉ rest := fun h => hp (List.mem_cons_of_mem _ h)
    rw [List.foldl_cons, ih hcr hpr (jsObjInsert acc t), jsObjInsert, if_neg htp]
    by_cases hmem : t ∈ acc.map Prod.fst
    · rw [if_pos hmem]
      have hkeys : (acc.map (fun kv => if kv.1 = t then (kv.1, bumpVal kv.2) else kv)).map
          Prod.fst = acc.map Prod.fst := by
        rw [List.map_map]
        apply List.map_congr_left
        intro kv _
        by_cases hkv : kv.1 = t <;> simp [hkv]
      rw [hkeys]
      have hbump : (acc.map (fun kv => if kv.1 = t then (kv.1, bumpVal kv.2) else kv)).map
            (fun kv => (kv.1, addCount kv.2 (rest.count kv.1))) =
          acc.map (fun kv => (kv.1, addCount kv.2 ((t :: rest).count kv.1))) := by
        rw [List.map_map]
        apply List.map_congr_left
        intro kv _
        by_cases hkv : kv.1 = t
        · simp only [Function.comp, if_pos hkv, List.count_cons, hkv, beq_self_eq_true,
            if_true, addCount_bump]
        · simp only [Function.comp, if_neg hkv, List.count_cons]
          have : ¬ (t == kv.1) = true := by
            simp only [beq_iff_eq]
            exact fun h => hkv h.symm
          simp [this]
      rw [hbump]
      have hdedup : dedupFirstAux (acc.map Prod.fst) (t :: rest) =
          dedupFirstAux (acc.map Prod.fst) rest := by
        rw [dedupFirstAux, if_pos hmem]
      rw [hdedup]
      have hvals : (dedupFirstAux (acc.map Prod.fst) rest).map
            (fun w => (w, JsVal.num (rest.count w))) =
          (dedupFirstAux (acc.map Prod.fst) rest).map
            (fun w => (w, JsVal.num ((t :: rest).count w))) := by
        apply List.map_congr_left
        intro w hw
        have hwne : w ≠ t := by
          intro h
          exact mem_dedupFirstAux_not_seen hw (h ▸ hmem)
        have : ¬ (t == w) = true := by
          simp only [beq_iff_eq]
          exact fun h => hwne h.symm
        simp [List.count_cons, this]
      rw [hvals]
    · rw [if_neg hmem, if_neg htc]
      have hkeys : (acc ++ [(t, JsVal.num 1)]).map Prod.fst = acc.map Prod.fst ++ [t] := by
        simp
      rw [hkeys]
      have hdedup : dedupFirstAux (acc.map Prod.fst ++ [t]) rest =
          dedupFirstAux (t :: acc.map Prod.fst) rest := by
        apply dedupFirstAux_congr
        intro x
        simp [List.mem_append, List.mem_cons, or_comm]
      rw [hdedup]
      have hgoal_dedup : dedupFirstAux (acc.map Prod.fst) (t :: rest) =
          t :: dedupFirstAux (t :: acc.map Prod.fst) rest := by
        rw [dedupFirstAux, if_neg hmem]
      rw [hgoal_dedup]
      rw [List.map_append]
      have hfirst : acc.map (fun kv => (kv.1, addCount kv.2 (rest.count kv.1))) =
          acc.map (fun kv => (kv.1, addCount kv.2 ((t :: rest).count kv.1))) := by
        apply List.map_congr_left
        intro kv hkv
        have hne : kv.1 ≠ t := by
          intro h
          exact hmem (h ▸ List.mem_map_of_mem Prod.fst hkv)
        have : ¬ (t == kv.1) = true := by
          simp only [beq_iff_eq]
          exact fun h => hne h.symm
        simp [List.count_cons, this]
      rw [hfirst]
      have hvals : (dedupFirstAux (t :: acc.map Prod.fst) rest).map
            (fun w => (w, JsVal.num (rest.count w))) =
          (dedupFirstAux (t :: acc.map Prod.fst) rest).map
            (fun w => (w, JsVal.num ((t :: rest).count w))) := by
        apply List.map_congr_left
        intro w hw
        have hwne : w ≠ t := by
          intro h
          exact mem_dedupFirstAux_not_seen hw (h ▸ List.mem_cons_self t _)
        have : ¬ (t == w) = true := by
          simp only [beq_iff_eq]
          exact fun h => hwne h.symm
        simp [List.count_cons, this]
      rw [hvals]
      simp [List.count_cons, addCount_num]
      omega

theorem wordFreq_eq (toks : List String)
    (hc : "constructor" ∉ toks) (hp : "__proto__" ∉ toks) :
    wordFreq toks = (dedupFirst toks).map (fun w => (w, JsVal.num (toks.count w))) := by
  have h := foldl_jsObjInsert toks hc hp []
  simpa [wordFreq, dedupFirst] using h

theorem stableInsert_map {α β : Type} (f : α → β) (lt : β → β → Bool) (lt' : α → α → Bool)
    (h : ∀ a b, lt (f a) (f b) = lt' a b) (x : α) :
    ∀ l : List α, stableInsert lt (f x) (l.map f) = (stableInsert lt' x l).map f := by
  intro l
  induction l with
  | nil => rfl
  | cons y ys ih =>
    rw [List.map_cons, stableInsert, stableInsert, h y x]
    by_cases hlt : lt' y x = true
    · rw [if_pos hlt, if_pos hlt, List.map_cons, ih]
    · rw [if_neg hlt, if_neg hlt]
      simp

/-- Sorting commutes with mapping when the comparator looks only through the
map. -/
theorem stableSort_map {α β : Type} (f : α → β) (lt : β → β → Bool) (lt' : α → α → Bool)
    (h : ∀ a b, lt (f a) (f b) = lt' a b) :
    ∀ l : List α, stableSort lt (l.map f) = (stableSort lt' l).map f := by
  intro l
  induction l with
  | nil => rfl
  | cons x xs ih =>
    rw [List.map_cons, stableSort, stableSort, ih, stableInsert_map f lt lt' h]

/-- `Object.entries` of the frequency object, in closed form: for token
lists avoiding the two prototype-member tokens, the distinct tokens in the
enumeration order of the amended claim, each paired with its frequency. -/
theorem jsObjectEntries_wordFreq (toks : List String)
    (hc : "constructor" ∉ toks) (hp : "__proto__" ∉ toks) :
    jsObjectEntries (wordFreq toks) =
      (enumKeysSpec toks).map (fun w => (w, JsVal.num (toks.count w))) := by
  rw [wordFreq_eq toks hc hp, jsObjectEntries, enumKeysSpec, List.map_append]
  congr 1
  · rw [List.filter_map]
    rw [show ((fun kv : String × JsVal => isArrayIndex kv.1) ∘
        fun w => (w, JsVal.num (toks.count w))) = (fun w => isArrayIndex w) from rfl]
    exact stableSort_map (fun w => (w, JsVal.num (toks.count w))) _ _ (fun a b => rfl) _
  · rw [List.filter_map]
    rfl

/-- Claim C5, counterexample: in `"aaaaa 11111"` both meaningful tokens
occur exactly once and `"aaaaa"` is encountered first, so the claim's
first-encounter tie-break demands `["Aaaaa", "11111"]`; the code instead
yields `["11111", "Aaaaa"]`, because the frequency map is a JS object and
`Object.entries` enumerates the array-index key `"11111"` before the string
key `"aaaaa"`. -/
theorem keyTopics_tie_not_first_encounter :
    keyTopics "aaaaa 11111" = ["11111", "Aaaaa"] ∧
      keyTopics "aaaaa 11111" ≠ ["Aaaaa", "11111"] := by
  constructor
  · decide
  · decide

/-- Claim C5 (amended): for every content string whose meaningful tokens
include neither `"constructor"` nor `"__proto__"` (the only lower-case
`Object.prototype` member names, on which the frequency object's prototype
chain interferes — see `keyTopics_proto_swallowed`), key-topic extraction
tokenizes on whitespace (after lower-casing), discards stop words and
tokens of length at most 4, ranks the distinct remaining tokens by
descending frequency with a stable sort, takes the top 5 and capitalizes
each; ties between equal-frequency tokens follow the frequency object's
key enumeration order, which is first-encounter order except that tokens
which are canonical decimal integers below 2^32 - 1 are enumerated before
all others, in ascending numeric order. -/
theorem keyTopics_eq_spec (content : String)
    (hc : "constructor" ∉ meaningfulWords content)
    (hp : "__proto__" ∉ meaningfulWords content) :
    keyTopics content = keyTopicsSpec content := by
  unfold keyTopics keyTopicsSpec
  rw [jsObjectEntries_wordFreq (meaningfulWords content) hc hp]
  rw [show (enumKeysSpec (meaningfulWords content)).map
        (fun w => (w, JsVal.num ((meaningfulWords content).count w))) =
      ((enumKeysSpec (meaningfulWords content)).map
          (fun w => (w, (meaningfulWords content).count w))).map
        (fun p => (p.1, JsVal.num p.2)) from by
      rw [List.map_map]
      exact List.map_congr_left fun w _ => rfl]
  rw [sortEntriesDesc, sortCountsDesc,
    stableSort_map (fun p : String × Nat => (p.1, JsVal.num p.2)) entryLt
      (fun kv kv' => decide (kv'.2 < kv.2)) (fun a b => rfl)]
  rw [← List.map_take, List.map_map]
  exact List.map_congr_left fun kv _ => rfl

/-- Witness for claim C5 at a concrete input free of the two
prototype-member tokens. -/
theorem keyTopics_eq_spec_witness :
    keyTopics "orange orange banana banana banana cherry" =
      keyTopicsSpec "orange orange banana banana banana cherry" :=
  keyTopics_eq_spec "orange orange banana banana banana cherry" (by decide) (by decide)

/-- The prototype chain in action, and why the hypotheses of the amended
claim C5 are needed: every `"__proto__"` token is swallowed by the
inherited setter, so it is never counted and never becomes a topic — the
program yields `["Queue"]` where the prototype-free enumeration rule would
yield `["Queue", "__proto__"]`. -/
theorem keyTopics_proto_swallowed :
    keyTopics "__proto__ queue queue" = ["Queue"] ∧
      keyTopicsSpec "__proto__ queue queue" = ["Queue", "__proto__"] := by
  constructor
  · decide
  · decide

/-! ## The fallback script synthesizer (`generateFallbackScript`, lines 31-173) -/

/-- The options record `PodcastScriptOptions`; `showName?` is optional. -/
structure PodcastScriptOptions where
  content : String
  style : String
  duration : String
  showName : Option String
deriving DecidableEq

structure EpisodeDetails where
  duration : String
  category : String
  season : Option String
  episode : Option String
  format : String
deriving DecidableEq

structure ShowNotes where
  keyTopics : List String
  resources : List String
  timestamps : List Timestamp
  episodeDetails : EpisodeDetails
deriving DecidableEq

structure GeneratedScript where
  intro : String
  mainContent : String
  outro : String
  showNotes : ShowNotes
deriving DecidableEq

/-- A row of the `styleFormats` table. -/
structure StyleFormat where
  introTone : String
  transitionPhrase : String
  hostVoice : String
deriving DecidableEq

def conversationalFormat : StyleFormat :=
  ⟨"friendly and welcoming", "So let's dive in", "casual and engaging"⟩

/-- `styleFormats[style as keyof typeof styleFormats] ||
styleFormats.conversational`, prototype chain included: one of the four own
rows; for a style naming an inherited `Object.prototype` member the lookup
yields that truthy function, whose `introTone`/`transitionPhrase`/
`hostVoice` properties are `undefined` and interpolate as the text
`"undefined"` (modelled as that string); any other style falls through to
the conversational row. -/
def styleFormatOf (style : String) : StyleFormat :=
  if style = "conversational" then conversationalFormat
  else if style = "professional" then
    ⟨"authoritative and polished", "Let's examine this in detail", "professional and informative"⟩
  else if style = "educational" then
    ⟨"knowledgeable and approachable", "Today we'll learn about", "educational and clear"⟩
  else if style = "interview" then
    ⟨"curious and engaging", "Our guest today brings unique insights", "inquisitive and thoughtful"⟩
  else if style ∈ objectPrototypeKeys then ⟨"undefined", "undefined", "undefined"⟩
  else conversationalFormat

/-- The sentence-terminal class `[.!?]`. -/
def isSentenceSep (c : Char) : Bool :=
  c == '.' || c == '!' || c == '?'

/-- ASCII model of `String.prototype.trim`. -/
def jsTrim (s : String) : String :=
  String.mk (((s.data.dropWhile isWsChar).reverse.dropWhile isWsChar).reverse)

/-- `content.split(/[.!?]+/).filter(s => s.trim().length > 10)`. -/
def sentencesOf (content : String) : List String :=
  (jsSplitRuns isSentenceSep content).filter (fun s => decide (10 < (jsTrim s).length))

/-- `sentences[0]?.trim() || "Welcome to today's discussion."`. -/
def firstSentenceOf (content : String) : String :=
  match (sentencesOf content).head? with
  | none => "Welcome to today's discussion."
  | some s => jsOrStr (jsTrim s) "Welcome to today's discussion."

/-- `sentences.slice(1, Math.min(sentences.length, 8))`. -/
def contentChunksOf (content : String) : List String :=
  ((sentencesOf content).take (min (sentencesOf content).length 8)).drop 1

/-- JS `Array.prototype.join`. -/
def jsJoin (sep : String) : List String → String
  | [] => ""
  | [x] => x
  | x :: y :: xs => x ++ sep ++ jsJoin sep (y :: xs)

/-- The intro template (source lines 88-98). -/
def introText (showName firstSentence transitionPhrase : String) : String :=
  "[INTRO MUSIC FADES IN]\n\nWelcome to " ++ showName ++
    "! I'm your host, and today we're diving into a fascinating topic that's sure to capture your attention.\n\n[MUSIC FADES TO BACKGROUND]\n\n" ++
    firstSentence ++
    " This is exactly the kind of story that deserves our attention, and I'm excited to break it down for you in today's episode.\n\n[MUSIC FADES OUT]\n\n" ++
    transitionPhrase ++
    ", and explore what this means for all of us. Grab your coffee, settle in, and let's get started."

/-- `contentChunks.slice(3, 6).map((chunk, i) => ...).join('\n\n')`
(source line 116). -/
def bulletLines (chunks : List String) : String :=
  jsJoin "\n\n" (((chunks.drop 3).take 3).enum.map (fun p =>
    toString (p.1 + 1) ++ ". " ++
      jsOrStr p.2 "This aspect requires careful consideration of multiple factors."))

/-- The main-content template (source lines 102-122); note the trailing
space the source leaves after the seventh chunk. -/
def mainContentText (chunks : List String) : String :=
  "Now, let me walk you through the key points of this story.\n\n[TRANSITION MUSIC - 3 SECONDS]\n\nFirst, let's establish the context. " ++
    jsOrStr (chunks.getD 0 "") "We're looking at a development that has significant implications." ++
    "\n\n" ++
    jsOrStr (chunks.getD 1 "") "The details are quite compelling when you examine them closely." ++
    " This brings us to an important consideration that affects how we should interpret these findings.\n\n[TRANSITION MUSIC - 3 SECONDS]\n\nWhat's particularly interesting is how this connects to broader trends we've been seeing. " ++
    jsOrStr (chunks.getD 2 "") "The patterns are becoming clearer as more information emerges." ++
    "\n\nLet me break down the key implications:\n\n" ++
    bulletLines chunks ++
    "\n\n[TRANSITION MUSIC - 3 SECONDS]\n\nNow, you might be wondering what this means for the future. " ++
    jsOrStr (chunks.getD 6 "") "The trajectory suggests several possible outcomes that are worth monitoring." ++
    " \n\nThis is where things get really interesting, and why I wanted to share this story with you today."

/-- The outro template (source lines 125-139); `kt` is the raw key-topic
list, whose first two entries are defaulted individually. -/
def outroText (showName : String) (kt : List String) : String :=
  "[OUTRO MUSIC FADES IN]\n\nSo, what's the takeaway from all of this? I think the key insight is that " ++
    jsOrStr (kt.getD 0 "") "this topic" ++
    " continues to evolve in ways that demand our attention.\n\nAs we wrap up today's episode, I encourage you to think about how this might impact your own perspective on " ++
    jsOrStr (kt.getD 1 "") "related matters" ++
    ".\n\n[MUSIC BUILDS]\n\nThanks for joining me on " ++ showName ++
    ". If you enjoyed today's discussion, don't forget to subscribe and share this episode with friends who might find it interesting.\n\nNext time, we'll be exploring another compelling story, so make sure you're subscribed so you don't miss it.\n\nUntil then, keep questioning, keep learning, and I'll see you in the next episode.\n\n[OUTRO MUSIC FADES OUT]"

def fallbackResources : List String :=
  ["Episode transcript available on our website",
   "Follow us on social media for updates",
   "Submit topic suggestions via our contact form"]

/-- `s.replace(c, '')` with a string pattern: JS removes only the first
occurrence. -/
def removeFirst (c : Char) : List Char → List Char
  | [] => []
  | x :: xs => if x = c then xs else x :: removeFirst c xs

def jsRemoveFirstChar (c : Char) (s : String) : String :=
  String.mk (removeFirst c s.data)

/-- The fallback synthesizer `generateFallbackScript`.  The destructuring
default `showName = "The Show"` fires only when the property is absent
(`undefined`), which the `Option` models; an empty string is kept.  The
local `wordCount` of the source is computed but never used, so it is not
modelled. -/
def generateFallbackScript (options : PodcastScriptOptions) : GeneratedScript :=
  let showName := options.showName.getD "The Show"
  let format := styleFormatOf options.style
  { intro := introText showName (firstSentenceOf options.content) format.transitionPhrase,
    mainContent := mainContentText (contentChunksOf options.content),
    outro := outroText showName (keyTopics options.content),
    showNotes :=
      { keyTopics := keyTopicsFinal options.content,
        resources := fallbackResources,
        timestamps := timestampsOf options.duration,
        episodeDetails :=
          { duration := "~" ++ jsRemoveFirstChar '+' options.duration ++ " minutes",
            category := inferCategory (wordsOf options.content),
            season := none,
            episode := none,
            format := if options.style = "interview" then "Interview Style"
              else "Solo Commentary" } } }

/-! ## Claims about the synthesizer -/

/-- Claim C10: the resources list of the show notes is the same fixed
3-element list for every input, independent of content, style, duration and
show name. -/
theorem fallback_resources_fixed (o : PodcastScriptOptions) :
    (generateFallbackScript o).showNotes.resources =
      ["Episode transcript available on our website",
       "Follow us on social media for updates",
       "Submit topic suggestions via our contact form"] := rfl

/-- Claim C6: the fallback synthesizer is deterministic; two calls with
identical inputs return identical `GeneratedScript` values in every field.
(The embedded synthesizer is a pure function of its options record: the
source reads nothing but its arguments and module-level constants and uses
no randomness.) -/
theorem generateFallbackScript_deterministic (o₁ o₂ : PodcastScriptOptions) (h : o₁ = o₂) :
    generateFallbackScript o₁ = generateFallbackScript o₂ := by
  rw [h]

/-- Witness for claim C6 at a concrete input. -/
theorem generateFallbackScript_deterministic_witness :
    generateFallbackScript ⟨"Sample content for the show.", "conversational", "10-20", none⟩ =
      generateFallbackScript ⟨"Sample content for the show.", "conversational", "10-20", none⟩ :=
  generateFallbackScript_deterministic
    ⟨"Sample content for the show.", "conversational", "10-20", none⟩
    ⟨"Sample content for the show.", "conversational", "10-20", none⟩ rfl

theorem keyTopics_len_le (content : String) : (keyTopics content).length ≤ 5 := by
  unfold keyTopics
  rw [List.length_map, List.length_take]
  exact min_le_left _ _

/-- Claim C2, counterexample: for the content `"hello"` exactly one topic is
extracted, and the show notes keep the 1-element list `["Hello"]` — the
generic placeholders replace the list only when it is empty, so its length
is not between 3 and 5. -/
theorem showNotes_keyTopics_length_one :
    (generateFallbackScript ⟨"hello", "conversational", "10-20", none⟩).showNotes.keyTopics =
        ["Hello"] ∧
      ((generateFallbackScript
          ⟨"hello", "conversational", "10-20", none⟩).showNotes.keyTopics).length = 1 := by
  constructor
  · decide
  · decide

/-- Claim C2 (amended): the key-topic list in the show notes has length
between 1 and 5 inclusive; when frequency-based extraction yields no topic
at all the list is replaced by the fixed placeholders `["Analysis",
"Discussion", "Insights"]`, but a 1- or 2-element list is kept unpadded. -/
theorem showNotes_keyTopics_bounds (o : PodcastScriptOptions) :
    1 ≤ ((generateFallbackScript o).showNotes.keyTopics).length ∧
      ((generateFallbackScript o).showNotes.keyTopics).length ≤ 5 ∧
      (keyTopics o.content = [] →
        (generateFallbackScript o).showNotes.keyTopics =
          ["Analysis", "Discussion", "Insights"]) := by
  have hkt : (generateFallbackScript o).showNotes.keyTopics = keyTopicsFinal o.content := rfl
  rw [hkt]
  unfold keyTopicsFinal
  by_cases h : 0 < (keyTopics o.content).length
  · rw [if_pos h]
    refine ⟨h, keyTopics_len_le o.content, fun hnil => ?_⟩
    rw [hnil] at h
    simp at h
  · rw [if_neg h]
    exact ⟨by decide, by decide, fun _ => rfl⟩

/-- Witness for claim C2's placeholder branch at a concrete input: the
content `"a b c d"` has no token longer than 4 characters, so extraction
yields no topic and the fixed placeholders are returned. -/
theorem showNotes_keyTopics_bounds_witness :
    (generateFallbackScript ⟨"a b c d", "conversational", "10-20", none⟩).showNotes.keyTopics =
      ["Analysis", "Discussion", "Insights"] :=
  (showNotes_keyTopics_bounds ⟨"a b c d", "conversational", "10-20", none⟩).2.2 (by decide)

/-- Claim C9, counterexample: an empty-string show name is not replaced by
the default; the destructuring default `showName = "The Show"` fires only
for an absent (`undefined`) property, so the intro of a script generated
with `showName: ""` differs from the intro generated with the option
absent. -/
theorem showName_empty_not_defaulted :
    (generateFallbackScript ⟨"c", "conversational", "10-20", some ""⟩).intro ≠
      (generateFallbackScript ⟨"c", "conversational", "10-20", none⟩).intro := by
  decide

/-- Claim C9 (amended): an absent show name defaults to `"The Show"`, and a
present show name — the empty string included — is interpolated verbatim
into the intro and outro. -/
theorem showName_default_and_verbatim (o : PodcastScriptOptions) :
    generateFallbackScript o =
        generateFallbackScript { o with showName := some (o.showName.getD "The Show") } ∧
      (generateFallbackScript o).intro =
        "[INTRO MUSIC FADES IN]\n\nWelcome to " ++ o.showName.getD "The Show" ++
          "! I'm your host, and today we're diving into a fascinating topic that's sure to capture your attention.\n\n[MUSIC FADES TO BACKGROUND]\n\n" ++
          firstSentenceOf o.content ++
          " This is exactly the kind of story that deserves our attention, and I'm excited to break it down for you in today's episode.\n\n[MUSIC FADES OUT]\n\n" ++
          (styleFormatOf o.style).transitionPhrase ++
          ", and explore what this means for all of us. Grab your coffee, settle in, and let's get started." ∧
      (generateFallbackScript o).outro =
        "[OUTRO MUSIC FADES IN]\n\nSo, what's the takeaway from all of this? I think the key insight is that " ++
          jsOrStr ((keyTopics o.content).getD 0 "") "this topic" ++
          " continues to evolve in ways that demand our attention.\n\nAs we wrap up today's episode, I encourage you to think about how this might impact your own perspective on " ++
          jsOrStr ((keyTopics o.content).getD 1 "") "related matters" ++
          ".\n\n[MUSIC BUILDS]\n\nThanks for joining me on " ++ o.showName.getD "The Show" ++
          ". If you enjoyed today's discussion, don't forget to subscribe and share this episode with friends who might find it interesting.\n\nNext time, we'll be exploring another compelling story, so make sure you're subscribed so you don't miss it.\n\nUntil then, keep questioning, keep learning, and I'll see you in the next episode.\n\n[OUTRO MUSIC FADES OUT]" := by
  refine ⟨?_, rfl, rfl⟩
  rcases o with ⟨c, s, d, n⟩
  cases n <;> rfl

/-! ## The script-generation facade (`generatePodcastScript`)

The external AI call is modelled by its outcome: `Except.error` for an
exception thrown by the model call, `Except.ok t` for a response whose
`.text` is `t` (`none` models `undefined`).  `JSON.parse` plus the
structured-output contract is modelled by a parse oracle.  The body of the
`try` block is identical in `src/unnamed/part_002` and in
`src/server/services/gemini.ts`; the two files differ only in the `catch`
handler. -/

/-- The `try` block shared by both facade variants: fail on a missing or
empty `response.text`, otherwise parse it. -/
def aiAttempt (aiResponse : Except String (Option String))
    (parseJson : String → Except String GeneratedScript) : Except String GeneratedScript :=
  match aiResponse with
  | .error e => .error e
  | .ok none => .error "Empty response from Gemini API"
  | .ok (some rawJson) =>
    if rawJson = "" then .error "Empty response from Gemini API"
    else parseJson rawJson

/-- The facade of `src/unnamed/part_002` (lines 209-278): any failure of
the AI call is caught and answered by `generateFallbackScript(options)`. -/
def generatePodcastScript (options : PodcastScriptOptions)
    (aiResponse : Except String (Option String))
    (parseJson : String → Except String GeneratedScript) : GeneratedScript :=
  match aiAttempt aiResponse parseJson with
  | .ok script => script
  | .error _ => generateFallbackScript options

/-- The facade of `src/server/services/gemini.ts` (lines 113-131): the
`catch` handler wraps the failure and rethrows instead of falling back. -/
def generatePodcastScriptRethrow (_options : PodcastScriptOptions)
    (aiResponse : Except String (Option String))
    (parseJson : String → Except String GeneratedScript) : Except String GeneratedScript :=
  match aiAttempt aiResponse parseJson with
  | .ok script => .ok script
  | .error e => .error ("Failed to generate podcast script: " ++ e)

/-- Claim C4, counterexample: the facade variant in
`src/server/services/gemini.ts` does propagate an AI-call exception to its
caller — here a network error surfaces as an error result instead of a
fallback script. -/
theorem facade_rethrow_propagates :
    generatePodcastScriptRethrow ⟨"Some content.", "conversational", "10-20", none⟩
        (.error "network error") (fun _ => .error "unreachable") =
      .error "Failed to generate podcast script: network error" := rfl

/-- Claim C4 (amended): the facade co-located with the fallback synthesizer
(`src/unnamed/part_002`) never propagates an AI-call failure: for every
input it returns either the successfully parsed AI script or exactly
`generateFallbackScript` applied to the identical options, never a partial
or error result.  (The separate facade variant in
`src/server/services/gemini.ts` instead wraps and rethrows, as the
counterexample shows.) -/
theorem facade_total_fallback (o : PodcastScriptOptions)
    (aiResponse : Except String (Option String))
    (parseJson : String → Except String GeneratedScript) :
    (∃ rawJson script, aiResponse = .ok (some rawJson) ∧ rawJson ≠ "" ∧
        parseJson rawJson = .ok script ∧
        generatePodcastScript o aiResponse parseJson = script) ∨
      generatePodcastScript o aiResponse parseJson = generateFallbackScript o := by
  cases aiResponse with
  | error e => right; rfl
  | ok t =>
    cases t with
    | none => right; rfl
    | some rawJson =>
      by_cases hraw : rawJson = ""
      · right
        simp [generatePodcastScript, aiAttempt, hraw]
      · cases hp : parseJson rawJson with
        | error e =>
          right
          simp [generatePodcastScript, aiAttempt, hraw, hp]
        | ok script =>
          left
          exact ⟨rawJson, script, rfl, hraw, hp, by
            simp [generatePodcastScript, aiAttempt, hraw, hp]⟩

/-! ## The content extractor (`fetchContentFromUrl`, lines 286-354)

The network fetch and the cheerio HTML queries are external; the extractor
is modelled from the point where the selected title text, the first
level-1-heading text and the selected raw content text are in hand. -/

structure FetchedContent where
  title : String
  content : String
  wordCount : Nat
deriving DecidableEq

/-- The clean-up chain
`content.replace(/\s+/g, ' ').replace(/\n\s*\n/g, '\n\n').trim()`.
The first `replace` turns every maximal whitespace run into one space,
which is the split fields rejoined with single spaces; the second
`replace` is the identity here, since no newline survives the first; then
the result is trimmed. -/
def cleanContent (raw : String) : String :=
  jsTrim (jsJoin " " (jsSplitRuns isWsChar raw))

/-- `$('title').text() || $('h1').first().text() || 'Untitled Article'`
(line 305). -/
def resolveTitle (titleText h1Text : String) : String :=
  jsOrStr titleText (jsOrStr h1Text "Untitled Article")

/-- The tail of `fetchContentFromUrl`: clean the content, fail below the
50-character threshold, otherwise return the trimmed title, the cleaned
content and `content.trim().split(/\s+/).length`. -/
def fetchFinish (titleText h1Text rawContent : String) : Except String FetchedContent :=
  let content := cleanContent rawContent
  if content.length < 50 then
    .error "Could not extract meaningful content from the URL"
  else
    .ok ⟨jsTrim (resolveTitle titleText h1Text), content,
      (jsSplitRuns isWsChar (jsTrim content)).length⟩

/-- The surrounding `catch` of `fetchContentFromUrl`, which wraps and
rethrows any failure. -/
def fetchContentResult (titleText h1Text rawContent : String) : Except String FetchedContent :=
  match fetchFinish titleText h1Text rawContent with
  | .ok fc => .ok fc
  | .error e => .error ("Failed to fetch content from URL: " ++ e)

/-- Claim C7: a document whose extracted content is shorter than 50
characters after normalization fails with the extraction error and returns
no partial `FetchedContent`; at or above the threshold the extractor
returns the title, the normalized content and the whitespace-token count of
that content. -/
theorem fetchFinish_threshold (titleText h1Text rawContent : String) :
    ((cleanContent rawContent).length < 50 ∧
        fetchContentResult titleText h1Text rawContent =
          .error
            "Failed to fetch content from URL: Could not extract meaningful content from the URL") ∨
      (50 ≤ (cleanContent rawContent).length ∧
        fetchContentResult titleText h1Text rawContent =
          .ok ⟨jsTrim (resolveTitle titleText h1Text), cleanContent rawContent,
            (jsSplitRuns isWsChar (jsTrim (cleanContent rawContent))).length⟩) := by
  by_cases h : (cleanContent rawContent).length < 50
  · left
    exact ⟨h, by simp [fetchContentResult, fetchFinish, h]⟩
  · right
    exact ⟨le_of_not_lt h, by simp [fetchContentResult, fetchFinish, h]⟩

/-- Claim C8, counterexample: a document whose title element holds only
whitespace yields the empty title.  The string `" "` is truthy in JS, so
neither the heading nor the `"Untitled Article"` placeholder is consulted,
and the final `title.trim()` leaves `""` — the extractor's title is not
always non-empty. -/
theorem extractor_title_can_be_empty :
    fetchFinish " " "Fallback Heading"
        "This article body is long enough to pass the fifty character minimum check." =
      .ok ⟨"", "This article body is long enough to pass the fifty character minimum check.", 13⟩ := by
  rfl

/-- Claim C8 (amended): the returned title is the trim of: the title
element's text when that is a nonempty string, else the first level-1
heading's text when nonempty, else `"Untitled Article"`; with both sources
empty the placeholder is returned, and the returned title is empty exactly
when the selected source text is nonempty but consists of whitespace
only. -/
theorem extractor_title_characterization :
    jsTrim (resolveTitle "" "") = "Untitled Article" ∧
      ∀ titleText h1Text,
        (jsTrim (resolveTitle titleText h1Text) = "" ↔
          (titleText ≠ "" ∧ jsTrim titleText = "") ∨
            (titleText = "" ∧ h1Text ≠ "" ∧ jsTrim h1Text = "")) := by
  constructor
  · decide
  · intro titleText h1Text
    unfold resolveTitle jsOrStr
    by_cases ht : titleText = ""
    · rw [if_pos ht]
      by_cases hh : h1Text = ""
      · rw [if_pos hh]
        constructor
        · intro habs
          exact absurd habs (by decide)
        · rintro (⟨hne, _⟩ | ⟨_, hne, _⟩)
          · exact absurd ht hne
          · exact absurd hh hne
      · rw [if_neg hh]
        constructor
        · intro h0
          exact Or.inr ⟨ht, hh, h0⟩
        · rintro (⟨hne, _⟩ | ⟨_, _, h0⟩)
          · exact absurd ht hne
          · exact h0
    · rw [if_neg ht]
      constructor
      · intro h0
        exact Or.inl ⟨ht, h0⟩
      · rintro (⟨_, h0⟩ | ⟨habs, _, _⟩)
        · exact h0
        · exact absurd habs ht

end Podcastpio
